import Mathlib

/-!
Verification of the FileForge conversion engine (`fileforge/core/fileforge.py`,
`fileforge/core/types.py`) as a shallow embedding.

Conventions of the embedding:
* Byte buffers are `List Nat` (Python `bytes`).
* Python exceptions raised and caught inside `FileForge.convert` are modelled by
  `Except String`, where the `String` is `str(e)`; the `try/except Exception`
  block of `convert` corresponds to the final `match` in `FileForge.convert`,
  which is therefore a total function — the Python method never raises past the
  block for the failures modelled here.
* External collaborators of the engine that are not part of the core sources
  (the filesystem, the `glob` and `mimetypes` standard-library tables, the
  `FileUtils.detect_format_by_signature` magic-number table, and the
  `MetadataExtractor.extract` service) are collected into an `Env` record of
  pure functions; a fixed `Env` models one fixed external world.
* Wall-clock timing (`time.time()` differences) is environmental and carries no
  specified behaviour; `processing_time` / `total_time` are modelled as `0`.
* Filesystem effects may fail: reading a file in `_prepare_input` fails when
  the file is absent (`Env.files`), and creating the output directory plus
  writing the output file in `_save_output` may raise an `OSError`
  (`Env.writeFile`), which `convert`'s handler turns into a failure result.
-/

/-- Byte strings (`bytes`) are modelled as lists of naturals. -/
abbrev Bytes := List Nat

/-- Python `s.lstrip('.')`: drop every leading dot. -/
def lstripDot (s : String) : String :=
  String.mk (s.toList.dropWhile (fun c => c == '.'))

/-- Python `s.lower()` restricted to ASCII letters (format tokens and
extensions are ASCII). -/
def strToLower (s : String) : String :=
  String.mk (s.toList.map Char.toLower)

/-- Index of the last occurrence of `c` in `cs` (Python `str.rfind`),
`none` when absent. -/
def rlastIdx (cs : List Char) (c : Char) : Option Nat :=
  ((cs.enum.filter (fun p => p.2 == c)).getLast?).map (fun p => p.1)

/-- Splitting a character list on a separator (structural counterpart of
`str.split(sep)` for a one-character separator). -/
def splitOnChar (cs : List Char) (sep : Char) : List (List Char) :=
  cs.foldr
    (fun c acc =>
      match acc with
      | [] => [[c]]
      | a :: as => if c == sep then [] :: a :: as else (c :: a) :: as)
    [[]]

/-- Slash-separated components of a POSIX path string. -/
def pathComponents (p : String) : List String :=
  (splitOnChar p.toList '/').map String.mk

/-- Final path component (`pathlib.Path(p).name`, POSIX paths without a
trailing slash). -/
def pathName (p : String) : String :=
  (pathComponents p).getLastD ""

/-- Extension of the final component including the dot
(`pathlib.Path(p).suffix`): CPython returns `name[i:]` for the last dot index
`i` when `0 < i < len(name) - 1`, else the empty string. -/
def pathSuffix (p : String) : String :=
  let name := pathName p
  let cs := name.toList
  match rlastIdx cs '.' with
  | some i => if 0 < i ∧ i < cs.length - 1 then String.mk (cs.drop i) else ""
  | none => ""

/-- Final component without its extension (`pathlib.Path(p).stem`). -/
def pathStem (p : String) : String :=
  let name := pathName p
  let cs := name.toList
  match rlastIdx cs '.' with
  | some i => if 0 < i ∧ i < cs.length - 1 then String.mk (cs.take i) else name
  | none => name

/-- Parent directory as a string (`str(pathlib.Path(p).parent)`). -/
def pathParent (p : String) : String :=
  match (pathComponents p).dropLast with
  | [] => "."
  | cs => let s := String.intercalate "/" cs
          if s = "" then "/" else s

/-- Joining (`str(pathlib.Path(d) / n)`); `pathlib` drops a bare `.`
component. -/
def joinPath (d n : String) : String :=
  if d = "" ∨ d = "." ∨ d = "./" then n else d ++ "/" ++ n

/-- UTF-8 encoding of a string (`str.encode('utf-8')`). -/
def strBytes (s : String) : Bytes :=
  s.toUTF8.toList.map (fun b => b.toNat)

/-- Python truthiness of an `Optional[str]`: `None` and `""` are falsy. -/
def optTruthy (o : Option String) : Bool :=
  o.getD "" ≠ ""

/-- `Path(file_path).suffix if file_path else ''` from `_detect_format`. -/
def suffixOf : Option String → String
  | some p => pathSuffix p
  | none => ""

/-- Compression levels (`CompressionLevel` enum in `types.py`). -/
inductive CompressionLevel
  | none | low | medium | high | maximum
deriving DecidableEq

/-- Enum `.value` strings of `CompressionLevel`. -/
def CompressionLevel.value : CompressionLevel → String
  | .none => "none"
  | .low => "low"
  | .medium => "medium"
  | .high => "high"
  | .maximum => "maximum"

/-- Metadata of a file (`MetadataResult` dataclass).  Timestamps and numeric
fields are modelled as naturals; the open-ended `Any`-valued mappings as
association lists of strings. -/
structure MetadataResult where
  format : String
  mime_type : String
  file_size : Nat
  created : Option Nat := Option.none
  modified : Option Nat := Option.none
  dimensions : Option (List (String × Nat)) := Option.none
  duration : Option Nat := Option.none
  fps : Option Nat := Option.none
  bitrate : Option Nat := Option.none
  exif : Option (List (String × String)) := Option.none
  document : Option (List (String × String)) := Option.none
  extracted_text : Option String := Option.none
  custom : List (String × String) := []
deriving DecidableEq

/-- Options of a conversion (`ConversionOptions` dataclass).  The `Any`-valued
sub-option bags are modelled as association lists of strings. -/
structure ConversionOptions where
  output_format : Option String := Option.none
  output_dir : Option String := Option.none
  output_name : Option String := Option.none
  compression : CompressionLevel := CompressionLevel.medium
  quality : Nat := 85
  ocr : Bool := false
  ocr_language : String := "por"
  metadata : Bool := false
  streaming : Bool := false
  buffer_size : Nat := 256 * 1024
  format_options : List (String × String) := []
  ai : Option (List (String × String)) := Option.none
  tts : Option (List (String × String)) := Option.none
  image : Option (List (String × String)) := Option.none
  video : Option (List (String × String)) := Option.none
  audio : Option (List (String × String)) := Option.none
  debug : Bool := false
  plugin : Option String := Option.none
deriving DecidableEq

/-- Default-constructed options (`ConversionOptions()`). -/
def ConversionOptions.default : ConversionOptions := {}

/-- Result of one conversion (`ConversionResult` dataclass). -/
structure ConversionResult where
  success : Bool
  original_format : String
  output_format : String
  original_size : Nat
  processing_time : Nat
  output_path : Option String := Option.none
  data : Option Bytes := Option.none
  output_size : Option Nat := Option.none
  metadata : Option MetadataResult := Option.none
  errors : List String := []
  warnings : List String := []
deriving DecidableEq

/-- Value returned by a plugin's `convert`: `bytes` or `str`
(`Union[bytes, str]`). -/
inductive PluginOut
  | bytes (b : Bytes)
  | text (s : String)

/-- Coercion applied by the engine to a plugin result:
`result if isinstance(result, bytes) else result.encode('utf-8')`. -/
def PluginOut.toBytes : PluginOut → Bytes
  | .bytes b => b
  | .text s => strBytes s

/-- A plugin (`Plugin` base class in `types.py`): identity, declared format
sets, and the conversion operation, which may raise
(`PluginConversionError`). -/
structure Plugin where
  name : String
  version : String
  input_formats : List String
  output_formats : List String
  convert : Bytes → ConversionOptions → Except String PluginOut

/-- `Plugin.can_convert` from `types.py`: membership of both formats in the
declared sets. -/
def Plugin.can_convert (p : Plugin) (input_format output_format : String) : Bool :=
  p.input_formats.contains input_format && p.output_formats.contains output_format

/-- Direction argument of `is_format_supported` (`type_` string, either
`'input'` or `'output'`). -/
inductive FormatDirection
  | input | output
deriving DecidableEq

/-- Modelled from the spec: the plugin registry (`plugin_manager.py` is not
among the sources; §4.2 of the spec describes it).  It holds the registered
plugins in registration order. -/
structure PluginManager where
  plugins : List Plugin

/-- Modelled from the spec: `find(input_format, output_format)` returns the
first registered plugin (in registration order) whose capability set contains
both formats, else none. -/
def PluginManager.find_plugin (pm : PluginManager)
    (input_format output_format : String) : Option Plugin :=
  pm.plugins.find? (fun p => p.can_convert input_format output_format)

/-- Modelled from the spec: `is_supported(format, direction)` is true if any
registered plugin declares the format in its input (direction=input) or output
(direction=output) set. -/
def PluginManager.is_format_supported (pm : PluginManager)
    (format_name : String) (dir : FormatDirection) : Bool :=
  pm.plugins.any (fun p =>
    (match dir with
     | .input => p.input_formats
     | .output => p.output_formats).contains format_name)

/-- Batch options (`BatchConversionOptions` dataclass, extending
`ConversionOptions`).  The progress callback is a pure function that may raise
(`Except`); `on_error` records whether an error callback was supplied — its
invocations are logged in `BatchState.errorCalls`. -/
structure BatchConversionOptions extends ConversionOptions where
  patterns : List String := []
  max_concurrency : Nat := 5
  continue_on_error : Bool := true
  on_progress : Option (Nat → Nat → String → Except String Unit) := Option.none
  on_error : Bool := false

/-- Default-constructed batch options (`BatchConversionOptions()`). -/
def BatchConversionOptions.default : BatchConversionOptions := {}

/-- Result of a batch (`BatchConversionResult` dataclass); the `errors` list of
`{file, error}` dictionaries is modelled as a list of (file, error) pairs. -/
structure BatchConversionResult where
  total_files : Nat
  success_count : Nat
  error_count : Nat
  results : List ConversionResult
  errors : List (String × String)
  total_time : Nat
deriving DecidableEq

/-- The external world of one engine run: filesystem reads, `glob.glob`,
the `mimetypes` tables, the magic-number detector
(`FileUtils.detect_format_by_signature`, whose module is not among the
sources; modelled from the spec as failing with an unknown-format error when
no signature matches) and the metadata extraction service
(`MetadataExtractor.extract`, module not among the sources; modelled from the
spec as an external service whose outcome may be a raised error, as the
default `Plugin.extract_metadata` in `types.py` raises
`NotImplementedError`). -/
structure Env where
  files : String → Option Bytes
  globMatches : String → List String
  guessType : String → Option String
  guessExtension : String → Option String
  sigDetect : Bytes → Except String String
  extractMeta : Bytes → String → Option String → Except String MetadataResult
  writeFile : String → Bytes → Except String Unit

/-- Input accepted by `convert`: raw bytes, or a path (`str` and
`pathlib.Path` coincide after `str(input_data)`). -/
inductive InputData
  | bytes (b : Bytes)
  | path (p : String)

/-- `FileForge._prepare_input`: bytes pass through with no path; a path is
read from the filesystem (a missing file raises `FileNotFoundError`, whose
`str` is the usual errno message). -/
def prepareInput (env : Env) : InputData → Except String (Bytes × Option String)
  | .bytes b => .ok (b, Option.none)
  | .path p =>
    match env.files p with
    | some data => .ok (data, some p)
    | Option.none => .error ("[Errno 2] No such file or directory: " ++ p)

/-- MIME-type branch and signature fallback of `FileForge._detect_format`
(everything after the extension check).  `mimetypes.guess_type` and
`mimetypes.guess_extension` return `None` or a nonempty string, so their
Python truthiness tests coincide with the `Option` match. -/
def detectFormatMime (env : Env) (pm : PluginManager) (buffer : Bytes)
    (file_path : Option String) : Except String String :=
  match env.guessType ("dummy" ++ suffixOf file_path) with
  | some mime_type =>
    match env.guessExtension mime_type with
    | some ext0 =>
      if pm.is_format_supported (lstripDot ext0) .input = true then
        .ok (lstripDot ext0)
      else env.sigDetect buffer
    | Option.none => env.sigDetect buffer
  | Option.none => env.sigDetect buffer

/-- `FileForge._detect_format`: extension of the path hint first, then the
MIME route, then the signature detector. -/
def FileForge.detectFormat (env : Env) (pm : PluginManager) (buffer : Bytes)
    (file_path : Option String) : Except String String :=
  match file_path with
  | some p =>
    let ext := lstripDot (strToLower (pathSuffix p))
    if ext ≠ "" ∧ pm.is_format_supported ext .input = true then .ok ext
    else detectFormatMime env pm buffer file_path
  | Option.none => detectFormatMime env pm buffer file_path

/-- `FileForge.extract_metadata`: prepare the input, use the format hint when
truthy (`format_hint or await self._detect_format(...)`), else detect, then
call the metadata extractor. -/
def FileForge.extract_metadata (env : Env) (pm : PluginManager)
    (input_data : InputData) (format_hint : Option String) :
    Except String MetadataResult :=
  match prepareInput env input_data with
  | .error e => .error e
  | .ok (input_buffer, input_path) =>
    if optTruthy format_hint = true then
      env.extractMeta input_buffer (format_hint.getD "") input_path
    else
      match FileForge.detectFormat env pm input_buffer input_path with
      | .error e => .error e
      | .ok fmt => env.extractMeta input_buffer fmt input_path

/-- `FileForge._optimize_file`: unchanged bytes at compression `none`; else a
`(format, format)` plugin when registered, falling back to unchanged bytes. -/
def optimizeFile (pm : PluginManager) (input_data : Bytes)
    (format_name : String) (options : ConversionOptions) : Except String Bytes :=
  if options.compression.value = "none" then .ok input_data
  else
    match pm.find_plugin format_name format_name with
    | some plugin => (plugin.convert input_data options).map PluginOut.toBytes
    | Option.none => .ok input_data

/-- `FileForge._execute_conversion`: same-format optimization pass, else the
first capable plugin, raising when none is registered. -/
def executeConversion (pm : PluginManager) (input_data : Bytes)
    (input_format output_format : String) (options : ConversionOptions) :
    Except String Bytes :=
  if input_format = output_format then
    optimizeFile pm input_data output_format options
  else
    match pm.find_plugin input_format output_format with
    | Option.none =>
      .error ("Conversão não suportada: " ++ input_format ++ " → " ++ output_format)
    | some plugin => (plugin.convert input_data options).map PluginOut.toBytes

/-- `FileForge._save_output`: resolve the directory and filename, create the
missing directories and write the bytes — the `mkdir` and the `open/write`
may raise an `OSError` (`Env.writeFile`) — and return the written path. -/
def saveOutput (env : Env) (data : Bytes) (format_name : String)
    (options : ConversionOptions) (original_path : Option String) :
    Except String String :=
  let output_dir :=
    match options.output_dir with
    | some d => d
    | Option.none =>
      match original_path with
      | some p => pathParent p
      | Option.none => "./"
  let output_name :=
    match options.output_name with
    | some n => n
    | Option.none =>
      match original_path with
      | some p => pathStem p ++ "." ++ format_name
      | Option.none => "output." ++ format_name
  match env.writeFile (joinPath output_dir output_name) data with
  | .ok _ => .ok (joinPath output_dir output_name)
  | .error e => .error e

/-- Mutation performed by `convert` before its `try` block:
`options = options or ConversionOptions()` followed by
`options.output_format = output_format`.  The caller's options object is
updated in place, so `convert` returns the updated record. -/
def mutatedOptions (output_format : String)
    (optionsIn : Option ConversionOptions) : ConversionOptions :=
  { optionsIn.getD ConversionOptions.default with output_format := some output_format }

/-- Body of the `try` block of `FileForge.convert`: prepare, detect, validate
both directions, optionally extract metadata, transform, and build the
success result, attaching the saved path when an output directory or name was
requested (Python truthiness: `if options.output_dir or options.output_name`);
a failing write raises into the surrounding handler. -/
def convertRun (env : Env) (pm : PluginManager) (input_data : InputData)
    (output_format : String) (options : ConversionOptions) :
    Except String ConversionResult :=
  match prepareInput env input_data with
  | .error e => .error e
  | .ok (input_buffer, input_path) =>
    match FileForge.detectFormat env pm input_buffer input_path with
    | .error e => .error e
    | .ok original_format =>
      if pm.is_format_supported original_format .input = false then
        .error ("Formato de entrada não suportado: " ++ original_format)
      else if pm.is_format_supported output_format .output = false then
        .error ("Formato de saída não suportado: " ++ output_format)
      else
        match (if options.metadata then
                 (FileForge.extract_metadata env pm (.bytes input_buffer)
                   (some original_format)).map some
               else .ok Option.none) with
        | .error e => .error e
        | .ok metadata =>
          match executeConversion pm input_buffer original_format
                  output_format options with
          | .error e => .error e
          | .ok output_data =>
            let result : ConversionResult :=
              { success := true
                original_format := original_format
                output_format := output_format
                original_size := input_buffer.length
                output_size := some output_data.length
                processing_time := 0
                data := some output_data
                metadata := metadata }
            if optTruthy options.output_dir || optTruthy options.output_name then
              match saveOutput env output_data output_format options input_path with
              | .error e => .error e
              | .ok output_path => .ok { result with output_path := some output_path }
            else .ok result

/-- `FileForge.convert`: the `try/except Exception` block — a caught
exception yields the failure result with `original_format='unknown'`,
`original_size=0` and the message in `errors`.  The second component is the
caller's options object after the call (see `mutatedOptions`). -/
def FileForge.convert (env : Env) (pm : PluginManager) (input_data : InputData)
    (output_format : String) (optionsIn : Option ConversionOptions) :
    ConversionResult × ConversionOptions :=
  match convertRun env pm input_data output_format
          (mutatedOptions output_format optionsIn) with
  | .ok result => (result, mutatedOptions output_format optionsIn)
  | .error e =>
    ({ success := false
       original_format := "unknown"
       output_format := output_format
       original_size := 0
       processing_time := 0
       errors := [e] }, mutatedOptions output_format optionsIn)

/-- Accumulated observable state of a batch run: the per-task values gathered
by `asyncio.gather` (a `ConversionResult`, or `none` for a task that raised —
with `return_exceptions=True` a raised exception becomes a non-result value
that the `isinstance` filter drops, observationally the same as the `None`
returned when `continue_on_error` is true), the `errors` list of
`{file, error}` records, and the logged callback invocations. -/
structure BatchState where
  completed : List (Option ConversionResult)
  errors : List (String × String)
  progressCalls : List (Nat × Nat × String)
  errorCalls : List (String × String)
deriving DecidableEq

/-- Empty batch state before any task runs. -/
def initialBatchState : BatchState := ⟨[], [], [], []⟩

/-- One `convert_file` task of `convert_batch`.  The single-file `convert`
never raises, so the only exception source inside the task is the progress
callback; on an exception the `{file, error}` record is appended, the error
callback (when present) is invoked, and — whether `continue_on_error`
re-raises or `None` is returned — the gathered value is a non-result. -/
def runBatchFile (env : Env) (pm : PluginManager) (output_format : String)
    (options : BatchConversionOptions) (total_files progress_count : Nat)
    (st : BatchState) (file : String) : BatchState :=
  let result := (FileForge.convert env pm (.path file) output_format
                  (some options.toConversionOptions)).1
  match options.on_progress with
  | Option.none => { st with completed := st.completed ++ [some result] }
  | some cb =>
    let st := { st with progressCalls := st.progressCalls ++ [(progress_count, total_files, file)] }
    match cb progress_count total_files file with
    | .ok _ => { st with completed := st.completed ++ [some result] }
    | .error e =>
      let st := { st with errors := st.errors ++ [(file, e)] }
      let st := if options.on_error then
                  { st with errorCalls := st.errorCalls ++ [(e, file)] }
                else st
      { st with completed := st.completed ++ [none] }

/-- Glob expansion of `convert_batch`: every pattern expanded with
`glob.glob(pattern, recursive=True)`, matches concatenated in pattern order
(duplicates across overlapping patterns preserved). -/
def batchFiles (env : Env) (patterns : List String) : List String :=
  (patterns.map env.globMatches).flatten

/-- The `results` variable of `convert_batch` as the tasks see it: it is bound
to `[]` before the tasks run and rebound only after the `gather`, so every
task computing `len(results) + 1` for the progress callback reads the initial
empty list. -/
def resultsBeforeGather : List ConversionResult := []

/-- Aggregation step of `convert_batch` after the gather: filter the
well-formed results and build the `BatchConversionResult`. -/
def batchResult (files : List String) (final : BatchState) :
    BatchConversionResult × BatchState :=
  ({ total_files := files.length
     success_count := ((final.completed.filterMap id).filter (fun r => r.success)).length
     error_count := final.errors.length
     results := final.completed.filterMap id
     errors := final.errors
     total_time := 0 }, final)

/-- `FileForge.convert_batch`.  The `asyncio` task interleaving is not
observable in the aggregated counts or in the values passed to the callbacks
(every task reads the same initial `results` list, see
`resultsBeforeGather`), so the tasks are modelled as run in submission
order. -/
def FileForge.convert_batch (env : Env) (pm : PluginManager)
    (patterns : List String) (output_format : String)
    (optionsIn : Option BatchConversionOptions) :
    BatchConversionResult × BatchState :=
  batchResult (batchFiles env patterns)
    ((batchFiles env patterns).foldl
      (runBatchFile env pm output_format (optionsIn.getD BatchConversionOptions.default)
        (batchFiles env patterns).length (resultsBeforeGather.length + 1))
      initialBatchState)

/-- Shape of a result produced by the `try` block: the success flag is set and
the output bytes are present. -/
theorem convertRun_ok_shape {env : Env} {pm : PluginManager} {input_data : InputData}
    {output_format : String} {options : ConversionOptions} {r : ConversionResult}
    (h : convertRun env pm input_data output_format options = .ok r) :
    r.success = true ∧ r.data.isSome = true := by
  unfold convertRun at h
  repeat' split at h
  all_goals try exact (Except.noConfusion h)
  all_goals simp only [Except.ok.injEq] at h
  all_goals subst h
  all_goals exact ⟨rfl, rfl⟩

/-- Splitting a list of results by the success flag partitions it. -/
theorem length_filter_success (l : List ConversionResult) :
    (l.filter (fun r => r.success)).length
      + (l.filter (fun r => !r.success)).length = l.length := by
  induction l with
  | nil => rfl
  | cons a as ih =>
    by_cases h : a.success = true <;>
      simp [List.filter_cons, h] <;> omega

/-- Each batch task contributes exactly one gathered value, and exactly one of
a well-formed result or an `{file, error}` record. -/
theorem runBatchFile_step (env : Env) (pm : PluginManager) (output_format : String)
    (options : BatchConversionOptions) (total_files progress_count : Nat)
    (st : BatchState) (file : String) :
    (runBatchFile env pm output_format options total_files progress_count st file).completed.length
        = st.completed.length + 1 ∧
    ((runBatchFile env pm output_format options total_files progress_count st file).completed.filterMap id).length
        + (runBatchFile env pm output_format options total_files progress_count st file).errors.length
      = (st.completed.filterMap id).length + st.errors.length + 1 := by
  unfold runBatchFile
  repeat' split
  all_goals simp [List.filterMap_append]
  all_goals omega

/-- Invariant of the batch fold: the gathered list grows by one per file, and
results plus error records grow by one per file. -/
theorem batchFold_invariant (env : Env) (pm : PluginManager) (output_format : String)
    (options : BatchConversionOptions) (total_files progress_count : Nat) :
    ∀ (files : List String) (st : BatchState),
      (files.foldl (runBatchFile env pm output_format options total_files progress_count) st).completed.length
          = st.completed.length + files.length ∧
      ((files.foldl (runBatchFile env pm output_format options total_files progress_count) st).completed.filterMap id).length
          + (files.foldl (runBatchFile env pm output_format options total_files progress_count) st).errors.length
        = (st.completed.filterMap id).length + st.errors.length + files.length := by
  intro files
  induction files with
  | nil => intro st; simp
  | cons a as ih =>
    intro st
    have hstep := runBatchFile_step env pm output_format options total_files
      progress_count st a
    have htail := ih (runBatchFile env pm output_format options total_files
      progress_count st a)
    simp only [List.foldl_cons, List.length_cons] at *
    omega

/-- Claim C1: for every input (bytes or a file path), every output format
string and every options value, `FileForge.convert` returns a
`ConversionResult` (the embedding is a total function, so no expected failure
— unknown input format, unsupported input/output format, no matching plugin,
plugin error, I/O error — escapes the `try/except` block), and every such
failure is reported with `success=false` and a describing message in the
result's `errors` list. -/
theorem claim1_convert_total_and_reports (env : Env) (pm : PluginManager)
    (input_data : InputData) (output_format : String)
    (optionsIn : Option ConversionOptions) :
    (FileForge.convert env pm input_data output_format optionsIn).1.success = true ∨
    ((FileForge.convert env pm input_data output_format optionsIn).1.success = false ∧
     (FileForge.convert env pm input_data output_format optionsIn).1.errors ≠ []) := by
  unfold FileForge.convert
  split
  · next r heq => exact Or.inl (convertRun_ok_shape heq).1
  · next e heq => exact Or.inr ⟨rfl, by simp⟩

/-- Claim C2: shape invariant of every result returned by
`FileForge.convert`: a failed result has no data and a non-empty error list; a
successful result carries output data or an output path. -/
theorem claim2_result_shape_invariant (env : Env) (pm : PluginManager)
    (input_data : InputData) (output_format : String)
    (optionsIn : Option ConversionOptions) :
    ((FileForge.convert env pm input_data output_format optionsIn).1.success = false →
       (FileForge.convert env pm input_data output_format optionsIn).1.data = Option.none ∧
       (FileForge.convert env pm input_data output_format optionsIn).1.errors ≠ []) ∧
    ((FileForge.convert env pm input_data output_format optionsIn).1.success = true →
       (FileForge.convert env pm input_data output_format optionsIn).1.data.isSome = true ∨
       (FileForge.convert env pm input_data output_format optionsIn).1.output_path.isSome = true) := by
  unfold FileForge.convert
  split
  · next r heq =>
    have hs := convertRun_ok_shape heq
    constructor
    · intro hf
      have : r.success = false := hf
      rw [hs.1] at this
      exact absurd this (by simp)
    · intro _
      exact Or.inl hs.2
  · next e heq =>
    constructor
    · intro _
      exact ⟨rfl, by simp⟩
    · intro ht
      have : (false : Bool) = true := ht
      exact absurd this (by simp)

/-- Claim C5: when the input is readable, its format detected and supported as
input, but the requested output format is not declared as an output by any
registered plugin, `convert` returns `success=false` with exactly the
unsupported-output-format message in `errors` (and, the embedding being
total, no exception escapes the call). -/
theorem claim5_unsupported_output_reported (env : Env) (pm : PluginManager)
    (input_data : InputData) (output_format : String)
    (optionsIn : Option ConversionOptions) (buf : Bytes) (p : Option String)
    (fmt : String)
    (hprep : prepareInput env input_data = .ok (buf, p))
    (hdet : FileForge.detectFormat env pm buf p = .ok fmt)
    (hin : pm.is_format_supported fmt .input = true)
    (hout : pm.is_format_supported output_format .output = false) :
    (FileForge.convert env pm input_data output_format optionsIn).1.success = false ∧
    (FileForge.convert env pm input_data output_format optionsIn).1.errors
      = ["Formato de saída não suportado: " ++ output_format] := by
  unfold FileForge.convert convertRun
  rw [hprep]
  simp [hdet, hin, hout]

/-- Witness for C5: a registry reading `txt` but writing nothing rejects a
`pdf` output request with the unsupported-output message. -/
def pmW5 : PluginManager :=
  ⟨[{ name := "reader", version := "1", input_formats := ["txt"],
      output_formats := [], convert := fun b _ => .ok (.bytes b) }]⟩

/-- Environment for the C5 witness: no files, no MIME table, signature
detection always answers `txt`. -/
def envW5 : Env :=
  { files := fun _ => Option.none
    globMatches := fun _ => []
    guessType := fun _ => Option.none
    guessExtension := fun _ => Option.none
    sigDetect := fun _ => .ok "txt"
    extractMeta := fun _ _ _ => .error "sem metadados"
    writeFile := fun _ _ => .error "[Errno 13] Permission denied" }

/-- Witness for claim C5 at a concrete input. -/
theorem claim5_witness :
    (FileForge.convert envW5 pmW5 (.bytes [0]) "pdf" Option.none).1.success = false ∧
    (FileForge.convert envW5 pmW5 (.bytes [0]) "pdf" Option.none).1.errors
      = ["Formato de saída não suportado: " ++ "pdf"] :=
  claim5_unsupported_output_reported envW5 pmW5 (.bytes [0]) "pdf" Option.none
    [0] Option.none "txt" rfl rfl rfl rfl

/-- Counterexample to claim C10 as stated: `convert` overwrites the caller's
`options.output_format` (line 56 of `fileforge.py`), so a field of the
caller's options object changes during the call. -/
theorem claim10_counterexample :
    (FileForge.convert envW5 pmW5 (.bytes []) "pdf"
        (some ConversionOptions.default)).2.output_format
      ≠ ConversionOptions.default.output_format := by
  decide

/-- Claim C10 (amended): every field of the caller's options object except
`output_format` has the same value after the call as before it, and
`output_format` is overwritten with the call's output format argument. -/
theorem claim10_amended_frame (env : Env) (pm : PluginManager)
    (input_data : InputData) (output_format : String)
    (options : ConversionOptions) :
    (FileForge.convert env pm input_data output_format (some options)).2
      = { options with output_format := some output_format } := by
  unfold FileForge.convert
  split <;> rfl

/-- Claim C6: format detection resolves in priority order — (1) a registered
lowercased path-hint extension wins; (2) otherwise a registered extension
mapped back from the MIME type guessed on `dummy + suffix` (the synthetic
placeholder when no hint exists) wins; (3) otherwise the signature detector
decides; and for a fixed environment and registry the result is a function of
the (buffer, path hint) pair alone. -/
theorem claim6_detection_priority (env : Env) (pm : PluginManager)
    (buffer : Bytes) (file_path : Option String) :
    (∀ p, file_path = some p →
       ∀ ext, lstripDot (strToLower (pathSuffix p)) = ext → ext ≠ "" →
         pm.is_format_supported ext .input = true →
         FileForge.detectFormat env pm buffer file_path = .ok ext) ∧
    ((∀ p, file_path = some p →
        ¬(lstripDot (strToLower (pathSuffix p)) ≠ "" ∧
          pm.is_format_supported (lstripDot (strToLower (pathSuffix p))) .input = true)) →
      (∀ mime_type, env.guessType ("dummy" ++ suffixOf file_path) = some mime_type →
         ∀ ext0, env.guessExtension mime_type = some ext0 →
           pm.is_format_supported (lstripDot ext0) .input = true →
           FileForge.detectFormat env pm buffer file_path = .ok (lstripDot ext0)) ∧
      ((∀ mime_type, env.guessType ("dummy" ++ suffixOf file_path) = some mime_type →
          ∀ ext0, env.guessExtension mime_type = some ext0 →
            pm.is_format_supported (lstripDot ext0) .input = false) →
        FileForge.detectFormat env pm buffer file_path = env.sigDetect buffer)) ∧
    (∀ b2 p2, b2 = buffer → p2 = file_path →
       FileForge.detectFormat env pm b2 p2 = FileForge.detectFormat env pm buffer file_path) := by
  refine ⟨?_, fun hfail => ⟨?_, ?_⟩, ?_⟩
  · intro p hp ext hext hne hsup
    subst hp
    subst hext
    unfold FileForge.detectFormat
    simp [hne, hsup]
  · intro mime_type hmt ext0 hext0 hsup
    have hmime : detectFormatMime env pm buffer file_path = .ok (lstripDot ext0) := by
      unfold detectFormatMime
      rw [hmt]
      simp [hext0, hsup]
    cases file_path with
    | none => unfold FileForge.detectFormat; exact hmime
    | some p =>
      have hcond := hfail p rfl
      unfold FileForge.detectFormat
      simp only [hcond]
      simp [hcond]
      exact hmime
  · intro hno
    have hmime : detectFormatMime env pm buffer file_path = env.sigDetect buffer := by
      unfold detectFormatMime
      cases hmt : env.guessType ("dummy" ++ suffixOf file_path) with
      | none => rfl
      | some mime_type =>
        cases hext0 : env.guessExtension mime_type with
        | none => simp [hext0]
        | some ext0 =>
          have := hno mime_type hmt ext0 hext0
          simp [hext0, this]
    cases file_path with
    | none => unfold FileForge.detectFormat; exact hmime
    | some p =>
      have hcond := hfail p rfl
      unfold FileForge.detectFormat
      simp [hcond]
      exact hmime
  · intro b2 p2 hb hp
    subst hb; subst hp
    rfl

/-- Registry for the C6 witness: reads `pdf` and `zzz`, writes `pdf`. -/
def pmW6 : PluginManager :=
  ⟨[{ name := "p6", version := "1", input_formats := ["pdf", "zzz"],
      output_formats := ["pdf"], convert := fun b _ => .ok (.bytes b) }]⟩

/-- Environment for the C6 witness: one MIME table entry `.abc ↦
application/zzz ↦ .zzz`, signature detection answering `sig`. -/
def envW6 : Env :=
  { files := fun _ => Option.none
    globMatches := fun _ => []
    guessType := fun n => if n = "dummy.abc" then some "application/zzz" else Option.none
    guessExtension := fun m => if m = "application/zzz" then some ".zzz" else Option.none
    sigDetect := fun _ => .ok "sig"
    extractMeta := fun _ _ _ => .error "sem metadados"
    writeFile := fun _ _ => .ok () }

/-- Witness for claim C6: each priority step observed at a concrete input —
a registered hint extension wins; with an unregistered hint extension the
MIME route wins; with no hint and an empty MIME answer the signature decides;
and detection at equal arguments agrees. -/
theorem claim6_witness :
    FileForge.detectFormat envW6 pmW6 [1] (some "x.pdf") = .ok "pdf" ∧
    FileForge.detectFormat envW6 pmW6 [1] (some "y.abc") = .ok "zzz" ∧
    FileForge.detectFormat envW6 pmW6 [1] Option.none = envW6.sigDetect [1] ∧
    FileForge.detectFormat envW6 pmW6 [1] Option.none
      = FileForge.detectFormat envW6 pmW6 [1] Option.none := by
  refine ⟨?_, ?_, ?_, ?_⟩
  · exact (claim6_detection_priority envW6 pmW6 [1] (some "x.pdf")).1
      "x.pdf" rfl "pdf" (by decide) (by decide) (by decide)
  · exact ((claim6_detection_priority envW6 pmW6 [1] (some "y.abc")).2.1
      (fun p hp => by cases hp; decide)).1
      "application/zzz" rfl ".zzz" rfl (by decide)
  · exact ((claim6_detection_priority envW6 pmW6 [1] Option.none).2.1
      (fun p hp => Option.noConfusion hp)).2
      (by
        intro mt hmt
        rw [show envW6.guessType ("dummy" ++ suffixOf Option.none) = Option.none from rfl] at hmt
        exact Option.noConfusion hmt)
  · exact (claim6_detection_priority envW6 pmW6 [1] Option.none).2.2 [1] Option.none rfl rfl

/-- Options with compression `none`, as in claim C4. -/
def optsW4 : ConversionOptions := { compression := CompressionLevel.none }

/-- Counterexample to claim C4 as stated: the detected format of the input
equals the requested output format (`txt`) and compression is `none`, yet
`convert` fails, because `txt` is not declared as an output by any registered
plugin — the output-direction validation precedes the same-format
optimization pass. -/
theorem claim4_counterexample :
    FileForge.detectFormat envW5 pmW5 [1, 2] Option.none = .ok "txt" ∧
    optsW4.compression = CompressionLevel.none ∧
    (FileForge.convert envW5 pmW5 (.bytes [1, 2]) "txt" (some optsW4)).1.success = false := by
  refine ⟨rfl, rfl, ?_⟩
  decide

/-- Claim C4 (amended): when the detected format equals the requested output
format AND that format is supported in both the input and output directions
(and, when the metadata option is set, metadata extraction succeeds, and,
when an output directory or name is requested, writing the output file
succeeds), `convert` with compression level `none` yields `success=true` and
output bytes identical to the input bytes. -/
theorem claim4_amended_idempotence (env : Env) (pm : PluginManager)
    (input_data : InputData) (output_format : String)
    (optionsIn : Option ConversionOptions) (buf : Bytes) (p : Option String)
    (hprep : prepareInput env input_data = .ok (buf, p))
    (hdet : FileForge.detectFormat env pm buf p = .ok output_format)
    (hin : pm.is_format_supported output_format .input = true)
    (hout : pm.is_format_supported output_format .output = true)
    (hcomp : (mutatedOptions output_format optionsIn).compression = CompressionLevel.none)
    (hmeta : (mutatedOptions output_format optionsIn).metadata = true →
       ∃ m, FileForge.extract_metadata env pm (.bytes buf) (some output_format) = .ok m)
    (hsave : (optTruthy (mutatedOptions output_format optionsIn).output_dir ||
              optTruthy (mutatedOptions output_format optionsIn).output_name) = true →
       ∃ path, saveOutput env buf output_format (mutatedOptions output_format optionsIn) p
         = .ok path) :
    (FileForge.convert env pm input_data output_format optionsIn).1.success = true ∧
    (FileForge.convert env pm input_data output_format optionsIn).1.data = some buf := by
  have hexec : executeConversion pm buf output_format output_format
      (mutatedOptions output_format optionsIn) = .ok buf := by
    unfold executeConversion optimizeFile
    simp [hcomp, CompressionLevel.value]
  unfold FileForge.convert convertRun
  rw [hprep]
  cases hm : (mutatedOptions output_format optionsIn).metadata with
  | true =>
    obtain ⟨m, hmm⟩ := hmeta hm
    simp only [hm]
    cases hcond : (optTruthy (mutatedOptions output_format optionsIn).output_dir ||
        optTruthy (mutatedOptions output_format optionsIn).output_name) with
    | false => simp [hdet, hin, hout, hmm, hexec, Except.map, hcond]
    | true =>
      obtain ⟨path, hpath⟩ := hsave hcond
      simp [hdet, hin, hout, hmm, hexec, Except.map, hcond, hpath]
  | false =>
    simp only [hm]
    cases hcond : (optTruthy (mutatedOptions output_format optionsIn).output_dir ||
        optTruthy (mutatedOptions output_format optionsIn).output_name) with
    | false => simp [hdet, hin, hout, hexec, Except.map, hcond]
    | true =>
      obtain ⟨path, hpath⟩ := hsave hcond
      simp [hdet, hin, hout, hexec, Except.map, hcond, hpath]

/-- Registry for the C4 witness: one plugin reading and writing `txt`. -/
def pmW4 : PluginManager :=
  ⟨[{ name := "txtio", version := "1", input_formats := ["txt"],
      output_formats := ["txt"], convert := fun b _ => .ok (.bytes b) }]⟩

/-- Witness for claim C4 (amended) at a concrete input. -/
theorem claim4_witness :
    (FileForge.convert envW5 pmW4 (.bytes [7]) "txt" (some optsW4)).1.success = true ∧
    (FileForge.convert envW5 pmW4 (.bytes [7]) "txt" (some optsW4)).1.data = some [7] :=
  claim4_amended_idempotence envW5 pmW4 (.bytes [7]) "txt" (some optsW4) [7]
    Option.none rfl rfl rfl rfl rfl (fun h => absurd h (by decide))
    (fun h => absurd h (by decide))

/-- Claim C3: for every list of glob patterns and options with
`continue_on_error=true`, `convert_batch` reports `total_files` equal to the
glob matches summed over all patterns (duplicates across overlapping patterns
preserved), and the successful results, the soft failures and the recorded
hard errors partition the files. -/
theorem claim3_batch_counts (env : Env) (pm : PluginManager)
    (patterns : List String) (output_format : String)
    (options : BatchConversionOptions)
    (hc : options.continue_on_error = true) :
    (FileForge.convert_batch env pm patterns output_format (some options)).1.total_files
        = ((patterns.map env.globMatches).flatten).length ∧
    ((FileForge.convert_batch env pm patterns output_format (some options)).1.results.filter
        (fun r => r.success)).length
      + ((FileForge.convert_batch env pm patterns output_format (some options)).1.results.filter
          (fun r => !r.success)).length
      + (FileForge.convert_batch env pm patterns output_format (some options)).1.error_count
      = (FileForge.convert_batch env pm patterns output_format (some options)).1.total_files := by
  have hinv := batchFold_invariant env pm output_format options
    (batchFiles env patterns).length (resultsBeforeGather.length + 1)
    (batchFiles env patterns) initialBatchState
  constructor
  · rfl
  · have hsplit := length_filter_success
      (((batchFiles env patterns).foldl
        (runBatchFile env pm output_format options
          (batchFiles env patterns).length (resultsBeforeGather.length + 1))
        initialBatchState).completed.filterMap id)
    unfold FileForge.convert_batch batchResult
    simp only [Option.getD_some]
    unfold batchFiles at *
    simp only [initialBatchState] at *
    simp only [List.filterMap_nil, List.length_nil] at hinv
    omega

/-- Batch environment: the pattern `*` matches the two files `a` and `b`
(neither readable — a soft failure per file), signature detection and
metadata extraction fail. -/
def envB : Env :=
  { files := fun _ => Option.none
    globMatches := fun p => if p = "*" then ["a", "b"] else []
    guessType := fun _ => Option.none
    guessExtension := fun _ => Option.none
    sigDetect := fun _ => .error "Formato desconhecido"
    extractMeta := fun _ _ _ => .error "sem metadados"
    writeFile := fun _ _ => .ok () }

/-- Empty registry. -/
def pmE : PluginManager := ⟨[]⟩

/-- Batch options for the C3 witness: continue on error, with a progress
callback that raises on file `a` (producing one hard error). -/
def boptsW3 : BatchConversionOptions :=
  { continue_on_error := true
    on_progress := some (fun _ _ f => if f = "a" then .error "progress boom" else .ok ()) }

/-- Witness for claim C3 at a concrete batch with one hard error and one soft
failure. -/
theorem claim3_witness :
    (FileForge.convert_batch envB pmE ["*"] "txt" (some boptsW3)).1.total_files
        = (((["*"] : List String).map envB.globMatches).flatten).length ∧
    ((FileForge.convert_batch envB pmE ["*"] "txt" (some boptsW3)).1.results.filter
        (fun r => r.success)).length
      + ((FileForge.convert_batch envB pmE ["*"] "txt" (some boptsW3)).1.results.filter
          (fun r => !r.success)).length
      + (FileForge.convert_batch envB pmE ["*"] "txt" (some boptsW3)).1.error_count
      = (FileForge.convert_batch envB pmE ["*"] "txt" (some boptsW3)).1.total_files :=
  claim3_batch_counts envB pmE ["*"] "txt" boptsW3 rfl

/-- Batch options exhibiting the C7 divergence: `continue_on_error=false`,
an error callback present, and a progress callback that raises on file
`a`. -/
def boptsW7 : BatchConversionOptions :=
  { continue_on_error := false
    on_error := true
    on_progress := some (fun _ _ f => if f = "a" then .error "progress boom" else .ok ()) }

/-- Claim C7, behaviour of the code at the failing input: with
`continue_on_error=false` and the first task raising, the `{file, error}`
record is appended and the error callback invoked, but `convert_batch` still
returns a normal aggregate — the second file is processed and its result
collected — because `asyncio.gather(..., return_exceptions=True)` captures
the re-raised exception instead of surfacing it, and no unscheduled work is
aborted. -/
theorem claim7_code_eval :
    (FileForge.convert_batch envB pmE ["*"] "txt" (some boptsW7)).1.total_files = 2 ∧
    (FileForge.convert_batch envB pmE ["*"] "txt" (some boptsW7)).1.errors
      = [("a", "progress boom")] ∧
    (FileForge.convert_batch envB pmE ["*"] "txt" (some boptsW7)).2.errorCalls
      = [("progress boom", "a")] ∧
    (FileForge.convert_batch envB pmE ["*"] "txt" (some boptsW7)).1.results.length = 1 ∧
    (FileForge.convert_batch envB pmE ["*"] "txt" (some boptsW7)).1.error_count = 1 := by
  decide

/-- Options for the C8 evaluation: metadata requested, compression `none`. -/
def optsW8 : ConversionOptions :=
  { metadata := true, compression := CompressionLevel.none }

/-- Claim C8, behaviour of the code at the failing input: with
`options.metadata` set and metadata extraction raising for an otherwise
convertible input (`txt` readable and writable, same-format pass), `convert`
returns `success=false` with the metadata failure in `errors` and an empty
`warnings` list — the un-guarded `await self.extract_metadata(...)` lets the
exception reach the outer handler. -/
theorem claim8_code_eval :
    (FileForge.convert envW5 pmW4 (.bytes [1, 2, 3]) "txt" (some optsW8)).1.success = false ∧
    (FileForge.convert envW5 pmW4 (.bytes [1, 2, 3]) "txt" (some optsW8)).1.errors
      = ["sem metadados"] ∧
    (FileForge.convert envW5 pmW4 (.bytes [1, 2, 3]) "txt" (some optsW8)).1.warnings = [] := by
  decide

/-- Batch options for the C9 evaluation: a progress callback that never
raises. -/
def boptsW9 : BatchConversionOptions :=
  { on_progress := some (fun _ _ _ => .ok ()) }

/-- Claim C9, behaviour of the code at the failing input: on a two-file
batch, both progress invocations receive completed-count 1 — the task bodies
read `len(results) + 1` from the `results` binding that is reassigned only
after the gather, so the counts are not strictly increasing. -/
theorem claim9_progress_count_eval :
    (FileForge.convert_batch envB pmE ["*"] "txt" (some boptsW9)).2.progressCalls
      = [(1, 2, "a"), (1, 2, "b")] := by
  decide

/-- Witness for claim C2: the shape invariant observed at a concrete failing
call (empty registry) and at a concrete succeeding call. -/
theorem claim2_witness :
    (FileForge.convert envW5 pmE (.bytes []) "pdf" Option.none).1.data = Option.none ∧
    (FileForge.convert envW5 pmE (.bytes []) "pdf" Option.none).1.errors ≠ [] ∧
    ((FileForge.convert envW5 pmW4 (.bytes [7]) "txt" (some optsW4)).1.data.isSome = true ∨
     (FileForge.convert envW5 pmW4 (.bytes [7]) "txt" (some optsW4)).1.output_path.isSome = true) := by
  have h1 := (claim2_result_shape_invariant envW5 pmE (.bytes []) "pdf" Option.none).1
    (by decide)
  have h2 := (claim2_result_shape_invariant envW5 pmW4 (.bytes [7]) "txt" (some optsW4)).2
    (by decide)
  exact ⟨h1.1, h1.2, h2⟩
